import Mathlib

/-!
Verification of the ESP32-S3 camera / SD-card web server core
(`sd_functions.h`, `camera_functions.h`, `web_handlers.h`).

The C++ code is shallowly embedded: hardware and collaborator outcomes
(mount attempts, health probes, file opens, write return values, frame
availability) are supplied through explicit environment records, global
mutable state (`sdCardInitialized`, `usingSPIMode`, `lastSDCheckTime`,
the upload session statics) is threaded as an explicit `SDState` /
`UploadState`, and `millis()` values are natural numbers reduced modulo
2^32 exactly where the 32-bit unsigned subtraction in the source matters.
-/

set_option maxHeartbeats 2000000
set_option maxRecDepth 100000

namespace ArduinoCam

/-! ### Arduino `String` operations used by the handlers -/

/-- Arduino `String::startsWith`, as a prefix test on the character data. -/
def strStartsWith (s t : String) : Bool := t.data.isPrefixOf s.data

/-- Arduino `String::endsWith`, as a suffix test on the character data. -/
def strEndsWith (s t : String) : Bool := t.data.isSuffixOf s.data

/-- Arduino `String::indexOf(c) >= 0`, i.e. membership of a character. -/
def strContainsChar (s : String) (c : Char) : Bool := s.data.contains c

/-- `fileName.substring(fileName.lastIndexOf('/') + 1)`: the bare name after
the last `/` (the whole string when no `/` occurs). -/
def bareName (s : String) : String :=
  ⟨(s.data.reverse.takeWhile (fun c => c != '/')).reverse⟩

/-- Upload filename cleaning: the characters after the last `/` or `\`
(`filename.substring(max(lastIndexOf('/'), lastIndexOf('\\')) + 1)`). -/
def cleanFileName (s : String) : String :=
  ⟨(s.data.reverse.takeWhile (fun c => c != '/' && c != '\\')).reverse⟩

/-- Decimal digits of `n`, most significant first; `fuel` bounds recursion
(`fuel > n` always suffices). Models Arduino `String(unsigned long)`. -/
def natToDecimalAux : Nat → Nat → List Char
  | 0, _ => []
  | fuel + 1, n =>
    if n < 10 then [Nat.digitChar n]
    else natToDecimalAux fuel (n / 10) ++ [Nat.digitChar (n % 10)]

/-- Arduino `String(n)`: decimal rendering of a natural number. -/
def natToDecimal (n : Nat) : String := ⟨natToDecimalAux (n + 1) n⟩

/-! ### Storage transport (`sd_functions.h`)

`SDState` packages the three globals `sdCardInitialized`, `usingSPIMode`
and `lastSDCheckTime`. `SDEnv` supplies one call's `millis()` value, the
health probe outcome (`SD.open("/")`/`SD_MMC.open("/")` handle obtained
and `isDirectory()`), and the outcome of each numbered mount attempt of
either mode. -/

/-- Outcome of one mount attempt: `setPins` success (MMC only), `begin`
success, `cardType() != CARD_NONE`, and root directory open-and-isDirectory
verification. -/
structure SDAttempt where
  setPinsOk : Bool
  beginOk : Bool
  cardPresent : Bool
  rootOk : Bool

/-- Environment of one storage-transport call. -/
structure SDEnv where
  now : Nat
  probeOk : Bool
  mmc : Nat → SDAttempt
  spi : Nat → SDAttempt

/-- The transport globals of `sd_functions.h`. -/
structure SDState where
  initialized : Bool
  usingSPIMode : Bool
  lastCheck : Nat

/-- One SD_MMC attempt verifies: pins configured, `SD_MMC.begin` true,
card detected, root directory opens and is a directory. -/
def mmcAttemptOk (a : SDAttempt) : Bool :=
  a.setPinsOk && a.beginOk && a.cardPresent && a.rootOk

/-- One SPI attempt verifies: `SD.begin` true, card detected, root
directory opens and is a directory (`SPI.begin` returns no status). -/
def spiAttemptOk (a : SDAttempt) : Bool :=
  a.beginOk && a.cardPresent && a.rootOk

/-- The `while (retryCount > 0)` mount loop: `ver i` is whether attempt
number `i` fully verifies; returns success and the number of attempts
consumed. -/
def tryLoop (ver : Nat → Bool) : Nat → Nat → Bool × Nat
  | 0, i => (false, i)
  | n + 1, i => if ver i then (true, i + 1) else tryLoop ver n (i + 1)

/-- Result of `initializeSDCard`: boolean outcome, new globals, and the
number of attempts consumed in each mode. -/
structure InitResult where
  ok : Bool
  st : SDState
  mmcTried : Nat
  spiTried : Nat

/-- The body of `initializeSDCard` after its already-initialized guard:
3 SD_MMC attempts, then on exhaustion 3 SPI attempts; on success the
globals are set (`sdCardInitialized = true`, `usingSPIMode` per the mode,
`lastSDCheckTime = millis()`); on total failure `sdCardInitialized` stays
false and the other globals are untouched. -/
def initializeSDCardCore (e : SDEnv) (st : SDState) : InitResult :=
  let m := tryLoop (fun i => mmcAttemptOk (e.mmc i)) 3 0
  if m.1 then ⟨true, ⟨true, false, e.now⟩, m.2, 0⟩
  else
    let s := tryLoop (fun i => spiAttemptOk (e.spi i)) 3 0
    if s.1 then ⟨true, ⟨true, true, e.now⟩, m.2, s.2⟩
    else ⟨false, ⟨false, st.usingSPIMode, st.lastCheck⟩, m.2, s.2⟩

/-- `forceReinitializeSDCard`: resets `sdCardInitialized`, ends the active
mode, sleeps, and calls `initializeSDCard`; since the flag was just
cleared, that call's guard short-circuits into the mount machinery. -/
def forceReinitializeSDCard (e : SDEnv) (st : SDState) : Bool × SDState :=
  let r := initializeSDCardCore e { st with initialized := false }
  (r.ok, r.st)

/-- `SD_CHECK_INTERVAL`: health probes are throttled to one per 5000 ms. -/
def SD_CHECK_INTERVAL : Nat := 5000

/-- `millis() - lastSDCheckTime` with 32-bit unsigned wraparound. -/
def elapsedMillis (now last : Nat) : Nat :=
  (now % 2 ^ 32 + 2 ^ 32 - last % 2 ^ 32) % 2 ^ 32

/-- Result of `checkSDCardStatus`: boolean outcome, new globals, and how
many physical health probes (root-directory opens) the call performed. -/
structure CheckResult where
  ok : Bool
  st : SDState
  probes : Nat

/-- `checkSDCardStatus`: fails at once when uninitialized; probes the root
directory at most once per `SD_CHECK_INTERVAL`, re-stamping the timestamp
before probing; on a failed probe delegates to `forceReinitializeSDCard`
and returns its result. -/
def checkSDCardStatus (e : SDEnv) (st : SDState) : CheckResult :=
  if st.initialized = false then ⟨false, st, 0⟩
  else if SD_CHECK_INTERVAL < elapsedMillis e.now st.lastCheck then
    let st1 : SDState := { st with lastCheck := e.now }
    if e.probeOk then ⟨true, st1, 1⟩
    else
      let f := forceReinitializeSDCard e st1
      ⟨f.1, f.2, 1⟩
  else ⟨true, st, 0⟩

/-- `initializeSDCard`: no-op success when already initialized and healthy
(`if (sdCardInitialized && checkSDCardStatus()) return true;`), otherwise
the dual-mode mount machinery. -/
def initializeSDCard (e : SDEnv) (st : SDState) : InitResult :=
  if st.initialized then
    let c := checkSDCardStatus e st
    if c.ok then ⟨true, c.st, 0, 0⟩
    else initializeSDCardCore e c.st
  else initializeSDCardCore e st

/-- The recurring guard `if (!initializeSDCard() || !checkSDCardStatus())`
of the web handlers, with C short-circuit evaluation. -/
def sdGate (eInit eCheck : SDEnv) (st : SDState) : Bool × SDState :=
  let r := initializeSDCard eInit st
  if r.ok = false then (false, r.st)
  else
    let c := checkSDCardStatus eCheck r.st
    (c.ok, c.st)

/-- Some SD_MMC attempt among the three verifies. -/
def mmcAnyOk (e : SDEnv) : Bool :=
  mmcAttemptOk (e.mmc 0) || mmcAttemptOk (e.mmc 1) || mmcAttemptOk (e.mmc 2)

/-- Some SPI attempt among the three verifies. -/
def spiAnyOk (e : SDEnv) : Bool :=
  spiAttemptOk (e.spi 0) || spiAttemptOk (e.spi 1) || spiAttemptOk (e.spi 2)

/-- `forceReinitializeSDCard` is `initializeSDCard` on the state with the
initialized flag cleared (the guard in `initializeSDCard` short-circuits). -/
theorem forceReinitializeSDCard_eq_initializeSDCard (e : SDEnv) (st : SDState) :
    forceReinitializeSDCard e st =
      ((initializeSDCard e { st with initialized := false }).ok,
       (initializeSDCard e { st with initialized := false }).st) := rfl

/-! ### Capture-to-SD (`generateImageFileName`, `saveImageToSD`) -/

/-- `generateImageFileName(prefix)`: `prefix + "_" + String(millis()) + ".jpg"`;
`millis()` is a 32-bit unsigned value. -/
def generateImageFileName (pre : String) (now : Nat) : String :=
  pre ++ "_" ++ natToDecimal (now % 2 ^ 32) ++ ".jpg"

/-- Environment of one `saveImageToSD` call: the transport environment for
its `initializeSDCard()` call, whether `open(filepath, FILE_WRITE)` yields
a handle, and the byte count `file.write(buffer, length)` reports. -/
structure SaveEnv where
  sdEnv : SDEnv
  openOk : Bool
  written : Nat

/-- Result of `saveImageToSD`: boolean outcome, new transport globals, and
whether the frame buffer's bytes were actually read (the write ran). -/
structure SaveResult where
  ok : Bool
  st : SDState
  wrote : Bool

/-- `saveImageToSD(buffer, length, filepath)`: initialize the card, open
the file, write, and succeed exactly when `written == length`. -/
def saveImageToSD (e : SaveEnv) (st : SDState) (length : Nat) : SaveResult :=
  let r := initializeSDCard e.sdEnv st
  if r.ok = false then ⟨false, r.st, false⟩
  else if e.openOk = false then ⟨false, r.st, false⟩
  else ⟨e.written == length, r.st, true⟩

/-! ### Streaming (`handleCameraStream` in `camera_functions.h`) -/

/-- The chunked send loop of `handleCameraStream`:
`for (n = 0; n < fbLen; n += 1024)` sends a full 1024-byte chunk and
advances the pointer when `n + 1024 < fbLen`, otherwise sends
`fbLen % 1024` bytes when that remainder is nonzero. `rest` is the buffer
from the current pointer on; `fuel` bounds the iteration count
(`len + 1` suffices since `n` grows by 1024 per iteration). Returns the
concatenation of all bytes handed to `client.write`. -/
def chunkLoop : Nat → Nat → Nat → List Nat → List Nat
  | 0, _, _, _ => []
  | fuel + 1, n, len, rest =>
    if n < len then
      if n + 1024 < len then
        rest.take 1024 ++ chunkLoop fuel (n + 1024) len (rest.drop 1024)
      else if len % 1024 > 0 then
        rest.take (len % 1024) ++ chunkLoop fuel (n + 1024) len rest
      else chunkLoop fuel (n + 1024) len rest
    else []

/-- Payload bytes a stream iteration emits for the frame `buf`. -/
def streamPayload (buf : List Nat) : List Nat :=
  chunkLoop (buf.length + 1) 0 buf.length buf

/-- Observable events of one streaming-loop iteration. -/
inductive StreamEv where
  | acquire
  | acquireFail
  | boundary
  | payload (bytes : List Nat)
  | trailer
  | release
deriving DecidableEq

/-- Environment of one streaming-loop iteration: whether
`esp_camera_fb_get()` yields a frame, and its bytes. -/
structure StreamIterEnv where
  fbAvail : Bool
  frame : List Nat

/-- One iteration of the `while (client.connected())` loop: on a missing
frame, sleep and retry; on a frame, emit boundary/header/payload/trailer
when non-empty, then `esp_camera_fb_return(fb)` unconditionally. -/
def streamIter (e : StreamIterEnv) : List StreamEv :=
  if e.fbAvail = false then [.acquireFail]
  else
    .acquire ::
      ((if e.frame.length > 0 then
          [.boundary, .payload (streamPayload e.frame), .trailer]
        else []) ++ [.release])

/-- The streaming loop's event trace over a finite run of iterations. -/
def streamTrace (es : List StreamIterEnv) : List StreamEv :=
  (es.map streamIter).flatten

/-! ### Capture handler (`handleCapture` in `web_handlers.h`) -/

/-- Observable frame-buffer events of `handleCapture`. -/
inductive CapEv where
  | fbGetOk
  | fbGetFail
  | fbReturn
  | readBuf
  | send (code : Nat)
deriving DecidableEq

/-- Environment of one `handleCapture` call. -/
structure CaptureEnv where
  fbAvail : Bool
  fbLen : Nat
  now : Nat
  eInit : SDEnv
  eCheck : SDEnv
  eReinit : SDEnv
  save : SaveEnv

/-- `handleCapture`: acquire a frame; run the SD gate; on gate failure
return the frame and attempt `forceReinitializeSDCard`, failing the
request when that fails but falling through to the save when it succeeds;
save the frame (which reads `fb->buf`) and return the frame again. The
trace records every `esp_camera_fb_get`/`esp_camera_fb_return`, every
read of the frame's bytes, and the response code. -/
def handleCapture (e : CaptureEnv) (st : SDState) : List CapEv × SDState :=
  if e.fbAvail = false then ([.fbGetFail, .send 500], st)
  else
    let g := sdGate e.eInit e.eCheck st
    if g.1 = false then
      let f := forceReinitializeSDCard e.eReinit g.2
      if f.1 = false then ([.fbGetOk, .fbReturn, .send 500], f.2)
      else
        let s := saveImageToSD e.save f.2 e.fbLen
        ([.fbGetOk, .fbReturn] ++ (if s.wrote then [.readBuf] else [])
          ++ [.fbReturn, .send (if s.ok then 200 else 500)], s.st)
    else
      let s := saveImageToSD e.save g.2 e.fbLen
      ([.fbGetOk] ++ (if s.wrote then [.readBuf] else [])
        ++ [.fbReturn, .send (if s.ok then 200 else 500)], s.st)

/-- Whether some read of the frame's bytes happens strictly after some
return of the frame buffer in a capture trace. -/
def usedAfterRelease : List CapEv → Bool
  | [] => false
  | CapEv.fbReturn :: rest => rest.contains CapEv.readBuf || usedAfterRelease rest
  | _ :: rest => usedAfterRelease rest

/-! ### Path normalization shared by the list and create-folder handlers -/

/-- `if (path.isEmpty() || path == "") path = "/";
if (!path.startsWith("/")) path = "/" + path;` -/
def normalizeDirPath (p : String) : String :=
  let p1 := if p = "" then "/" else p
  if strStartsWith p1 "/" then p1 else "/" ++ p1

/-! ### File list handler (`handleFileList`) -/

/-- One entry as yielded by `openNextFile`: raw name (possibly carrying a
directory prefix), `isDirectory()`, `size()`. -/
structure DirEntry where
  name : String
  isDir : Bool
  size : Nat

/-- The JSON object the handler appends for a listed (non-hidden) entry. -/
def entryJson (bare : String) (f : DirEntry) : String :=
  "\x7b\"name\":\"" ++ bare ++ "\",\"isDir\":" ++
    (if f.isDir then "true" else "false") ++ ",\"size\":" ++
    natToDecimal f.size ++ "\x7d"

/-- The `while (file)` loop of `handleFileList`, building the JSON array
body and the visible-entry count. A comma is appended whenever `first`
is false, then `first` is set false; a non-hidden bare name appends its
object and bumps the count; a hidden (dot-prefixed) bare name removes the
last character of the accumulated JSON (`json.substring(0, len - 1)` —
`first` is always false at that test, having just been cleared) and resets
`first` to `fileCount == 0`. -/
def fileListLoop : List DirEntry → Bool → Nat → String → String × Nat
  | [], _, cnt, json => (json, cnt)
  | f :: rest, first, cnt, json =>
    let json1 := if first = false then json ++ "," else json
    let first1 := false
    let bare := bareName f.name
    if strStartsWith bare "." = false then
      fileListLoop rest first1 (cnt + 1) (json1 ++ entryJson bare f)
    else
      if first1 = false then
        fileListLoop rest (cnt == 0) cnt ⟨json1.data.dropLast⟩
      else fileListLoop rest first1 cnt json1

/-- The JSON text preceding the entries array. -/
def listJsonHead (path : String) : String :=
  "\x7b\"success\":true,\"path\":\"" ++ path ++ "\",\"files\":["

/-- Environment of one `handleFileList` call: the SD gate environments,
the reconnection environment, the per-try `open(path)` outcomes with the
reinitialization environments used between failed tries, and whether the
opened handle `isDirectory()`. -/
structure ListEnv where
  eInit : SDEnv
  eCheck : SDEnv
  eReinit : SDEnv
  openOk : Nat → Bool
  retryReinit : Nat → SDEnv
  isDir : Bool

/-- Result of `handleFileList`: HTTP status, body, the path handed to the
directory `open` (when the gate passed), and the new transport globals. -/
structure ListResult where
  status : Nat
  body : String
  openArg : Option String
  st : SDState

/-- The `while (retries > 0 && !root)` open loop: up to `n` tries; after a
failed try that is not the last, `forceReinitializeSDCard` runs before the
next try. -/
def openWithRetries (openOk : Nat → Bool) (retryReinit : Nat → SDEnv) :
    Nat → Nat → SDState → Bool × SDState
  | 0, _, st => (false, st)
  | n + 1, i, st =>
    if openOk i then (true, st)
    else if n = 0 then (false, st)
    else
      let f := forceReinitializeSDCard (retryReinit i) st
      openWithRetries openOk retryReinit n (i + 1) f.2

/-- The part of `handleFileList` after the SD gate: open the directory
with 3 tries, 404 on failure or on a non-directory, otherwise enumerate. -/
def listOpenPart (path : String) (e : ListEnv) (entries : List DirEntry)
    (st : SDState) : ListResult :=
  let o := openWithRetries e.openOk e.retryReinit 3 0 st
  if o.1 = false then
    ⟨404, "\x7b\"success\":false,\"error\":\"Directory not found or SD card error\"\x7d",
      some path, o.2⟩
  else if e.isDir = false then
    ⟨404, "\x7b\"success\":false,\"error\":\"Path is not a directory\"\x7d", some path, o.2⟩
  else
    let r := fileListLoop entries true 0 (listJsonHead path)
    ⟨200, r.1 ++ "],\"count\":" ++ natToDecimal r.2 ++ "\x7d", some path, o.2⟩

/-- `handleFileList`: default and normalize the path, run the SD gate with
one reconnection attempt, then open and enumerate. -/
def handleFileList (hasPath : Bool) (path0 : String) (e : ListEnv)
    (entries : List DirEntry) (st : SDState) : ListResult :=
  let path := normalizeDirPath (if hasPath then path0 else "/")
  let g := sdGate e.eInit e.eCheck st
  if g.1 = false then
    let f := forceReinitializeSDCard e.eReinit g.2
    if f.1 = false then
      ⟨500,
        "\x7b\"success\":false,\"error\":\"SD Card not available - please check SD card connection\"\x7d",
        none, f.2⟩
    else listOpenPart path e entries f.2
  else listOpenPart path e entries g.2

/-! ### Download handler (`handleFileDownload`) -/

/-- Result of `handleFileDownload`: HTTP status, the path handed to the
transport `open` (when reached), and the new transport globals. -/
structure DownloadResult where
  status : Nat
  openArg : Option String
  st : SDState

/-- `handleFileDownload`: requires the `file` argument, prepends `/` when
missing, requires `initializeSDCard()`, 404 when the open fails, 400 on a
directory, otherwise streams the bytes. -/
def handleFileDownload (hasFile : Bool) (file : String) (e : SDEnv)
    (openOk isDir : Bool) (st : SDState) : DownloadResult :=
  if hasFile = false then ⟨400, none, st⟩
  else
    let fp := if strStartsWith file "/" then file else "/" ++ file
    let r := initializeSDCard e st
    if r.ok = false then ⟨500, none, r.st⟩
    else if openOk = false then ⟨404, some fp, r.st⟩
    else if isDir then ⟨400, some fp, r.st⟩
    else ⟨200, some fp, r.st⟩

/-! ### Delete handler (`handleFileDelete`) -/

/-- Result of `handleFileDelete`: HTTP status, body, the path handed to the
transport `remove` (when reached), and the new transport globals. -/
structure DeleteResult where
  status : Nat
  body : String
  removeArg : Option String
  st : SDState

/-- `handleFileDelete`: requires the `file` argument and
`initializeSDCard()`, then calls `SD.remove`/`SD_MMC.remove` on the
argument exactly as received — no leading-`/` normalization. -/
def handleFileDelete (hasFile : Bool) (filepath : String) (e : SDEnv)
    (removeOk : Bool) (st : SDState) : DeleteResult :=
  if hasFile = false then
    ⟨400, "\x7b\"success\":false,\"error\":\"Missing file parameter\"\x7d", none, st⟩
  else
    let r := initializeSDCard e st
    if r.ok = false then
      ⟨500, "\x7b\"success\":false,\"error\":\"SD Card not available\"\x7d", none, r.st⟩
    else if removeOk then
      ⟨200, "\x7b\"success\":true,\"message\":\"File deleted successfully\"\x7d",
        some filepath, r.st⟩
    else
      ⟨500, "\x7b\"success\":false,\"error\":\"Failed to delete file\"\x7d",
        some filepath, r.st⟩

/-! ### Create-folder handler (`handleCreateFolder`) -/

/-- Environment of one `handleCreateFolder` call. -/
structure CreateEnv where
  eInit : SDEnv
  eCheck : SDEnv
  eReinit : SDEnv
  mkdirOk : Bool

/-- Result of `handleCreateFolder`: HTTP status, body, the path handed to
the transport `mkdir` (when reached), and the new transport globals. -/
structure CreateResult where
  status : Nat
  body : String
  mkdirArg : Option String
  st : SDState

/-- The response body for an invalid folder name. -/
def createInvalidBody : String :=
  "\x7b\"success\":false,\"error\":\"Invalid folder name\"\x7d"

/-- The response body for a failed `mkdir`. -/
def createFailBody : String :=
  "\x7b\"success\":false,\"error\":\"Failed to create folder\"\x7d"

/-- The tail of `handleCreateFolder`: join the normalized base and name
(`if (!fullPath.endsWith("/")) fullPath += "/"; fullPath += folderName;`)
and call `mkdir`. -/
def createFolderMkdir (base name : String) (mkdirOk : Bool) (st : SDState) :
    CreateResult :=
  let fullPath := (if strEndsWith base "/" then base else base ++ "/") ++ name
  if mkdirOk then
    ⟨200, "\x7b\"success\":true,\"path\":\"" ++ fullPath ++ "\"\x7d", some fullPath, st⟩
  else ⟨500, createFailBody, some fullPath, st⟩

/-- `handleCreateFolder`: requires both arguments; rejects a name that
contains `/` or `\` or is empty before anything else; normalizes the base
path; runs the SD gate with one reconnection attempt; then `mkdir`. -/
def handleCreateFolder (hasPath hasName : Bool) (basePath name : String)
    (e : CreateEnv) (st : SDState) : CreateResult :=
  if hasPath = false || hasName = false then
    ⟨400, "\x7b\"success\":false,\"error\":\"Missing parameters\"\x7d", none, st⟩
  else if strContainsChar name '/' || strContainsChar name '\\' ||
      name.length == 0 then
    ⟨400, createInvalidBody, none, st⟩
  else
    let base := normalizeDirPath basePath
    let g := sdGate e.eInit e.eCheck st
    if g.1 = false then
      let f := forceReinitializeSDCard e.eReinit g.2
      if f.1 = false then
        ⟨500, "\x7b\"success\":false,\"error\":\"SD Card not available\"\x7d", none, f.2⟩
      else createFolderMkdir base name e.mkdirOk f.2
    else createFolderMkdir base name e.mkdirOk g.2

/-! ### Upload handlers (`handleFileUpload`, `handleFileUploadResponse`)

The statics `uploadFile`, `uploadPath`, `uploadError` of `handleFileUpload`
form an `UploadState`; crucially, `handleFileUploadResponse` has no access
to them. -/

/-- The upload session statics of `handleFileUpload`. -/
structure UploadState where
  hasHandle : Bool
  path : String
  error : Bool

/-- Environment of an `UPLOAD_FILE_START` event. -/
structure UploadStartEnv where
  eInit : SDEnv
  eCheck : SDEnv
  eReinit : SDEnv
  openOk : Nat → Bool
  retryCheck : Nat → SDEnv
  retryReinit : Nat → SDEnv

/-- The `while (retries > 0 && !uploadFile)` open loop of the upload start:
after a failed try that is not the last, `checkSDCardStatus` runs and, when
it fails, `forceReinitializeSDCard`. -/
def uploadOpenRetries (e : UploadStartEnv) :
    Nat → Nat → SDState → Bool × SDState
  | 0, _, st => (false, st)
  | n + 1, i, st =>
    if e.openOk i then (true, st)
    else if n = 0 then (false, st)
    else
      let c := checkSDCardStatus (e.retryCheck i) st
      if c.ok = false then
        let f := forceReinitializeSDCard (e.retryReinit i) c.st
        uploadOpenRetries e n (i + 1) f.2
      else uploadOpenRetries e n (i + 1) c.st

/-- The path-building and open part of the `UPLOAD_FILE_START` branch:
strip any directory part from the client filename, append `/` to a
non-root current directory, open with 3 tries; all tries failing sets the
session error flag. -/
def uploadStartOpen (e : UploadStartEnv) (filename : String)
    (dirArg : Option String) (u : UploadState) (st : SDState) :
    UploadState × SDState :=
  let fname := cleanFileName filename
  let dir := match dirArg with | some d => d | none => "/"
  let dir := if dir ≠ "/" && strEndsWith dir "/" = false then dir ++ "/" else dir
  let upath := dir ++ fname
  let o := uploadOpenRetries e 3 0 st
  if o.1 then ({ hasHandle := true, path := upath, error := u.error }, o.2)
  else ({ hasHandle := false, path := upath, error := true }, o.2)

/-- The `UPLOAD_FILE_START` branch: clear the error flag, run the SD gate
with one reconnection attempt (setting the error flag and returning early
when even that fails), then build the destination path and open it. -/
def handleFileUploadStart (e : UploadStartEnv) (filename : String)
    (dirArg : Option String) (u : UploadState) (st : SDState) :
    UploadState × SDState :=
  let u1 := { u with error := false }
  let g := sdGate e.eInit e.eCheck st
  if g.1 = false then
    let f := forceReinitializeSDCard e.eReinit g.2
    if f.1 = false then ({ u1 with error := true }, f.2)
    else uploadStartOpen e filename dirArg u1 f.2
  else uploadStartOpen e filename dirArg u1 g.2

/-- The `UPLOAD_FILE_WRITE` branch: with an open handle and no prior error,
write the chunk and set the error flag when the written count differs from
the chunk length; otherwise discard the chunk. -/
def handleFileUploadWrite (u : UploadState) (chunkLen written : Nat) :
    UploadState :=
  if u.hasHandle = true ∧ u.error = false then
    if written ≠ chunkLen then { u with error := true } else u
  else u

/-- The `UPLOAD_FILE_END` branch: with a handle, flush and close it; when
no prior error, re-open the file and set the error flag unless its size
equals the declared total; without a handle, set the error flag. -/
def handleFileUploadEnd (u : UploadState) (totalSize : Nat)
    (verifyOpenOk : Bool) (verifySize : Nat) : UploadState :=
  if u.hasHandle = true then
    let u1 := { u with hasHandle := false }
    if u1.error = false then
      if verifyOpenOk = true ∧ verifySize = totalSize then u1
      else { u1 with error := true }
    else u1
  else { u with error := true }

/-- The `UPLOAD_FILE_ABORTED` branch: close the handle, set the error flag. -/
def handleFileUploadAborted (u : UploadState) : UploadState :=
  { u with hasHandle := false, error := true }

/-- `handleFileUploadResponse`: runs the SD gate and answers 500 when it
fails, otherwise a success body — the upload session's error flag is not
consulted (it is a static local of `handleFileUpload`). -/
def handleFileUploadResponse (eInit eCheck : SDEnv) (st : SDState) :
    Nat × String × SDState :=
  let g := sdGate eInit eCheck st
  if g.1 = false then
    (500, "\x7b\"success\":false,\"error\":\"SD Card not available\"\x7d", g.2)
  else
    (200, "\x7b\"success\":true,\"message\":\"File uploaded successfully\"\x7d", g.2)

/-! ### Concrete environments used to evaluate the handlers -/

/-- A mount attempt in which everything fails. -/
def noAttempt : SDAttempt := ⟨false, false, false, false⟩

/-- A mount attempt in which everything succeeds. -/
def goodAttempt : SDAttempt := ⟨true, true, true, true⟩

/-- Probe succeeds; every mount attempt of either mode fails. -/
def quietEnv : SDEnv := ⟨0, true, fun _ => noAttempt, fun _ => noAttempt⟩

/-- The first SD_MMC mount attempt succeeds. -/
def mountOkEnv : SDEnv := ⟨0, true, fun _ => goodAttempt, fun _ => noAttempt⟩

/-- Probe fails and every mount attempt of either mode fails. -/
def mountFailEnv : SDEnv := ⟨0, false, fun _ => noAttempt, fun _ => noAttempt⟩

/-- Capture environment: a 100-byte frame is available, the SD gate fails
(card uninitialized and every mount attempt of the gate's own
`initializeSDCard` fails), the explicit `forceReinitializeSDCard` then
succeeds, and the save succeeds. -/
def captureEnvBug : CaptureEnv :=
  ⟨true, 100, 0, mountFailEnv, quietEnv, mountOkEnv, ⟨quietEnv, true, 100⟩⟩

/-- List environment in which the SD gate and the directory open succeed. -/
def listEnvOk : ListEnv :=
  ⟨quietEnv, quietEnv, quietEnv, fun _ => true, fun _ => quietEnv, true⟩

/-- Upload-start environment in which the SD gate and the open succeed. -/
def uploadEnvOk : UploadStartEnv :=
  ⟨quietEnv, quietEnv, quietEnv, fun _ => true, fun _ => quietEnv, fun _ => quietEnv⟩

/-! ### Helper lemmas -/

/-- Within the throttle window, `checkSDCardStatus` performs no physical
probe, and on an initialized state returns the last known state as
healthy, unchanged. -/
theorem checkSDCardStatus_noProbe (e : SDEnv) (st : SDState)
    (h : elapsedMillis e.now st.lastCheck ≤ SD_CHECK_INTERVAL) :
    (checkSDCardStatus e st).probes = 0
    ∧ (st.initialized = true → checkSDCardStatus e st = ⟨true, st, 0⟩) := by
  unfold checkSDCardStatus
  cases hI : st.initialized
  · simp
  · have hlt : ¬ SD_CHECK_INTERVAL < elapsedMillis e.now st.lastCheck :=
      Nat.not_lt.mpr h
    simp [hlt]

/-- The mount machinery either stamps the timestamp with the call's
`millis()` or leaves it untouched. -/
theorem initializeSDCardCore_lastCheck (e : SDEnv) (st : SDState) :
    (initializeSDCardCore e st).st.lastCheck = e.now
    ∨ (initializeSDCardCore e st).st.lastCheck = st.lastCheck := by
  unfold initializeSDCardCore
  cases h1 : (tryLoop (fun i => mmcAttemptOk (e.mmc i)) 3 0).1 <;>
    cases h2 : (tryLoop (fun i => spiAttemptOk (e.spi i)) 3 0).1 <;>
      simp [h1, h2]

/-- The mount machinery leaves the initialized flag equal to its outcome. -/
theorem initializeSDCardCore_initialized (e : SDEnv) (st : SDState) :
    (initializeSDCardCore e st).st.initialized = (initializeSDCardCore e st).ok := by
  unfold initializeSDCardCore
  cases h1 : (tryLoop (fun i => mmcAttemptOk (e.mmc i)) 3 0).1 <;>
    cases h2 : (tryLoop (fun i => spiAttemptOk (e.spi i)) 3 0).1 <;>
      simp [h1, h2]

/-- The three-attempt loop, unfolded. -/
theorem tryLoop_three (ver : Nat → Bool) :
    tryLoop ver 3 0 =
      if ver 0 then (true, 1)
      else if ver 1 then (true, 2)
      else if ver 2 then (true, 3)
      else (false, 3) := rfl

/-- `Nat.digitChar` yields a decimal digit character below 10. -/
theorem digitChar_isDigit (m : Nat) (h : m < 10) :
    (Nat.digitChar m).isDigit = true := by
  interval_cases m <;> decide

/-- With sufficient fuel, the decimal rendering is non-empty and consists
of digit characters only. -/
theorem natToDecimalAux_spec (fuel : Nat) :
    ∀ n, n < fuel →
      natToDecimalAux fuel n ≠ []
      ∧ ∀ c ∈ natToDecimalAux fuel n, c.isDigit = true := by
  induction fuel with
  | zero => intro n h; omega
  | succ f ih =>
    intro n h
    by_cases h10 : n < 10
    · refine ⟨by simp [natToDecimalAux, h10], ?_⟩
      intro c hc
      simp [natToDecimalAux, h10] at hc
      rw [hc]
      exact digitChar_isDigit n h10
    · have hd : n / 10 < n := Nat.div_lt_self (by omega) (by omega)
      have hf : n / 10 < f := by omega
      obtain ⟨hne, hmem⟩ := ih (n / 10) hf
      refine ⟨by simp [natToDecimalAux, h10], ?_⟩
      intro c hc
      simp [natToDecimalAux, h10] at hc
      rcases hc with hc | hc
      · exact hmem c hc
      · rw [hc]
        exact digitChar_isDigit (n % 10) (Nat.mod_lt n (by omega))

/-- Prepending `/` conses a slash onto the character data. -/
theorem data_slash_append (q : String) : ("/" ++ q).data = '/' :: q.data := by
  rcases q with ⟨l⟩
  rfl

/-- A string starting with a freshly prepended slash starts with `/`. -/
theorem strStartsWith_slash_append (q : String) :
    strStartsWith ("/" ++ q) "/" = true := by
  unfold strStartsWith
  rw [data_slash_append]
  show List.isPrefixOf ['/'] ('/' :: q.data) = true
  simp [List.isPrefixOf]

/-- The normalized directory path always begins with `/`. -/
theorem normalizeDirPath_startsWith (p : String) :
    strStartsWith (normalizeDirPath p) "/" = true := by
  unfold normalizeDirPath
  by_cases hs : strStartsWith (if p = "" then "/" else p) "/" = true
  · simp [hs]
  · simp only [Bool.not_eq_true] at hs
    simp [hs]
    exact strStartsWith_slash_append _

/-- When the mkdir call of the create-folder handler is reached, its
argument joins the base and name with exactly one separator at the
junction: the inserted `/` when the base lacks a trailing one, the base's
own trailing `/` otherwise. -/
theorem createFolderMkdir_arg (base name : String) (mk : Bool) (st : SDState)
    (p : String)
    (hp : (createFolderMkdir base name mk st).mkdirArg = some p) :
    (strEndsWith base "/" = false → p = base ++ "/" ++ name)
    ∧ (strEndsWith base "/" = true → p = base ++ name) := by
  unfold createFolderMkdir at hp
  by_cases he : strEndsWith base "/" = true
  · simp only [he, if_true] at hp
    cases mk <;> simp_all
  · simp only [Bool.not_eq_true] at he
    simp only [he] at hp
    cases mk <;> simp_all

/-- A reached mkdir with a false transport result yields the creation
failure response. -/
theorem createFolderMkdir_fail (base name : String) (st : SDState) :
    (createFolderMkdir base name false st).status = 500
    ∧ (createFolderMkdir base name false st).body = createFailBody := by
  unfold createFolderMkdir
  simp

/-- The create-folder handler either never reaches mkdir or behaves as
`createFolderMkdir` on the normalized base. -/
theorem handleCreateFolder_cases (hasPath hasName : Bool) (basePath name : String)
    (e : CreateEnv) (st : SDState) :
    (handleCreateFolder hasPath hasName basePath name e st).mkdirArg = none
    ∨ ∃ st', handleCreateFolder hasPath hasName basePath name e st
        = createFolderMkdir (normalizeDirPath basePath) name e.mkdirOk st' := by
  unfold handleCreateFolder
  dsimp only
  split
  · left; rfl
  · split
    · left; rfl
    · split
      · split
        · left; rfl
        · right; exact ⟨_, rfl⟩
      · right; exact ⟨_, rfl⟩

/-- Releases per streaming iteration: one exactly when a frame was
acquired. -/
theorem streamIter_count_release (e : StreamIterEnv) :
    (streamIter e).count StreamEv.release = if e.fbAvail then 1 else 0 := by
  cases hA : e.fbAvail
  · simp [streamIter, hA]
  · simp only [streamIter, hA]
    by_cases hL : e.frame.length > 0
    · simp only [if_pos hL]
      rfl
    · simp only [if_neg hL]
      rfl

/-- Acquisitions per streaming iteration: one exactly when a frame was
acquired. -/
theorem streamIter_count_acquire (e : StreamIterEnv) :
    (streamIter e).count StreamEv.acquire = if e.fbAvail then 1 else 0 := by
  cases hA : e.fbAvail
  · simp [streamIter, hA]
  · simp only [streamIter, hA]
    by_cases hL : e.frame.length > 0
    · simp only [if_pos hL]
      rfl
    · simp only [if_neg hL]
      rfl

/-- In an iteration that acquired a frame, the release is the final event
of the iteration's block. -/
theorem streamIter_getLast (e : StreamIterEnv) (h : e.fbAvail = true) :
    (streamIter e).getLast? = some StreamEv.release := by
  simp only [streamIter, h]
  by_cases hL : e.frame.length > 0
  · simp only [if_pos hL]
    rfl
  · simp only [if_neg hL]
    rfl

/-! ### Claim theorems -/

/-- C1: the claim that `handleCapture` releases the acquired frame exactly
once on every path and never reads it after release is false: on the path
where the storage health gate fails, the frame is returned, and when the
forced reinitialization then succeeds the handler falls through, reads
`fb->buf` inside `saveImageToSD`, and returns the frame a second time. -/
theorem handleCapture_double_release_on_recovery :
    (handleCapture captureEnvBug ⟨false, false, 0⟩).1
        = [CapEv.fbGetOk, CapEv.fbReturn, CapEv.readBuf, CapEv.fbReturn,
           CapEv.send 200]
    ∧ (handleCapture captureEnvBug ⟨false, false, 0⟩).1.count CapEv.fbReturn = 2
    ∧ usedAfterRelease (handleCapture captureEnvBug ⟨false, false, 0⟩).1 = true := by
  decide

/-- C2: the claim that the emitted chunks always concatenate back to the
frame is false for frames whose length is a positive multiple of 1024: the
final full chunk is never written (`n + 1024 < fbLen` is strict and the
remainder branch needs `fbLen % 1024 > 0`), so a 1024-byte frame emits no
payload at all and a 2048-byte frame emits only its first 1024 bytes. -/
theorem streamPayload_drops_final_chunk :
    streamPayload (List.replicate 1024 7) = []
    ∧ List.replicate 1024 7 ≠ ([] : List Nat)
    ∧ streamPayload (List.replicate 2048 7) = List.replicate 1024 7 := by
  refine ⟨by decide, by simp, by decide⟩

/-- C3: the claim that every enumeration yields well-formed JSON is false
when the first entry is hidden: the hidden-entry branch removes the last
character of the accumulated JSON even though no comma was added for a
first entry, eating the `[` that opens the files array, so the body of a
directory whose only entry is `.hidden` contains a closing `]` but no
opening `[`. -/
theorem handleFileList_hidden_first_malformed :
    (handleFileList true "/" listEnvOk [⟨".hidden", false, 0⟩] ⟨true, false, 0⟩).status
        = 200
    ∧ (handleFileList true "/" listEnvOk [⟨".hidden", false, 0⟩]
        ⟨true, false, 0⟩).body.data.count '[' = 0
    ∧ (handleFileList true "/" listEnvOk [⟨".hidden", false, 0⟩]
        ⟨true, false, 0⟩).body.data.count ']' = 1 := by
  decide

/-- C4: the claim that a failed upload is never reported as success is
false: after a short chunk write sets the session error flag (and the end
phase keeps it set), `handleFileUploadResponse` — which cannot read the
statics of `handleFileUpload` — still answers 200 with a success body
whenever the SD card is available. -/
theorem handleFileUploadResponse_reports_failed_upload_as_success :
    (handleFileUploadEnd
        (handleFileUploadWrite
          (handleFileUploadStart uploadEnvOk "data.bin" (some "/")
            ⟨false, "", false⟩ ⟨true, false, 0⟩).1 512 100)
        512 true 512).error = true
    ∧ (handleFileUploadResponse quietEnv quietEnv
        (handleFileUploadStart uploadEnvOk "data.bin" (some "/")
          ⟨false, "", false⟩ ⟨true, false, 0⟩).2).1 = 200
    ∧ (handleFileUploadResponse quietEnv quietEnv
        (handleFileUploadStart uploadEnvOk "data.bin" (some "/")
          ⟨false, "", false⟩ ⟨true, false, 0⟩).2).2.1
        = "\x7b\"success\":true,\"message\":\"File uploaded successfully\"\x7d" := by
  refine ⟨by decide, by decide, by decide⟩

/-- C5: `checkSDCardStatus` fails immediately on an uninitialized
transport; any call performs at most one physical probe; a second call
within the 5-second window of the state the first call left performs no
probe and reports an initialized state healthy; and once the window has
elapsed the call re-stamps the timestamp, probes once, and on a failing
probe returns exactly the result of the forced reinitialization. -/
theorem checkSDCardStatus_throttle_spec (st : SDState) (e1 e2 : SDEnv) :
    (st.initialized = false → checkSDCardStatus e1 st = ⟨false, st, 0⟩)
    ∧ (checkSDCardStatus e1 st).probes ≤ 1
    ∧ (elapsedMillis e2.now (checkSDCardStatus e1 st).st.lastCheck ≤ SD_CHECK_INTERVAL →
        (checkSDCardStatus e2 (checkSDCardStatus e1 st).st).probes = 0
        ∧ ((checkSDCardStatus e1 st).st.initialized = true →
            (checkSDCardStatus e2 (checkSDCardStatus e1 st).st).ok = true))
    ∧ (st.initialized = true →
        SD_CHECK_INTERVAL < elapsedMillis e1.now st.lastCheck →
        (checkSDCardStatus e1 st).probes = 1
        ∧ (checkSDCardStatus e1 st).st.lastCheck = e1.now
        ∧ (e1.probeOk = false →
            checkSDCardStatus e1 st =
              ⟨(forceReinitializeSDCard e1 { st with lastCheck := e1.now }).1,
               (forceReinitializeSDCard e1 { st with lastCheck := e1.now }).2, 1⟩)) := by
  refine ⟨?_, ?_, ?_, ?_⟩
  · intro h
    simp [checkSDCardStatus, h]
  · unfold checkSDCardStatus
    cases hI : st.initialized
    · simp
    · by_cases hE : SD_CHECK_INTERVAL < elapsedMillis e1.now st.lastCheck
      · cases hP : e1.probeOk <;> simp [hE, hP]
      · simp [hE]
  · intro h
    refine ⟨(checkSDCardStatus_noProbe e2 _ h).1, ?_⟩
    intro h2
    rw [(checkSDCardStatus_noProbe e2 _ h).2 h2]
  · intro hI hE
    have hck : checkSDCardStatus e1 st =
        (if e1.probeOk then (⟨true, { st with lastCheck := e1.now }, 1⟩ : CheckResult)
         else ⟨(forceReinitializeSDCard e1 { st with lastCheck := e1.now }).1,
               (forceReinitializeSDCard e1 { st with lastCheck := e1.now }).2, 1⟩) := by
      unfold checkSDCardStatus
      simp [hI, hE]
    rw [hck]
    cases hP : e1.probeOk
    · simp only [hP, Bool.false_eq_true, if_false]
      refine ⟨by simp, ?_, by simp⟩
      unfold forceReinitializeSDCard
      rcases initializeSDCardCore_lastCheck e1
          { st with lastCheck := e1.now, initialized := false } with hc | hc
      · exact hc
      · simpa using hc
    · simp [hP]

/-- C6: on an uninitialized transport, `initializeSDCard` attempts SD_MMC
(bus mode) with a budget of 3 attempts, each attempt verifying card
presence and the root directory; SPI is attempted (with its own budget of
3, verified the same way) only after all 3 SD_MMC attempts fail; the call
succeeds exactly when some attempt of either mode verifies, recording the
succeeding mode and stamping the timestamp on success, and returns false
only after both modes consume all 3 attempts. -/
theorem initializeSDCard_mode_fallback_spec (e : SDEnv) (st : SDState)
    (h : st.initialized = false) :
    (∀ a : SDAttempt, mmcAttemptOk a = true → a.cardPresent = true ∧ a.rootOk = true)
    ∧ (∀ a : SDAttempt, spiAttemptOk a = true → a.cardPresent = true ∧ a.rootOk = true)
    ∧ (initializeSDCard e st).ok = (mmcAnyOk e || spiAnyOk e)
    ∧ (mmcAnyOk e = true →
        (initializeSDCard e st).spiTried = 0
        ∧ (initializeSDCard e st).st.usingSPIMode = false)
    ∧ (mmcAnyOk e = false → (initializeSDCard e st).mmcTried = 3)
    ∧ (mmcAnyOk e = false → spiAnyOk e = true →
        (initializeSDCard e st).st.usingSPIMode = true)
    ∧ ((initializeSDCard e st).ok = true →
        (initializeSDCard e st).st.initialized = true
        ∧ (initializeSDCard e st).st.lastCheck = e.now)
    ∧ ((initializeSDCard e st).ok = false →
        (initializeSDCard e st).mmcTried = 3
        ∧ (initializeSDCard e st).spiTried = 3
        ∧ (initializeSDCard e st).st.initialized = false) := by
  have hi : initializeSDCard e st = initializeSDCardCore e st := by
    unfold initializeSDCard
    simp [h]
  refine ⟨fun a ha => ?_, fun a ha => ?_, ?_⟩
  · rcases a with ⟨sp, bg, cp, ro⟩
    cases cp <;> cases ro <;> simp_all [mmcAttemptOk]
  · rcases a with ⟨sp, bg, cp, ro⟩
    cases cp <;> cases ro <;> simp_all [spiAttemptOk]
  · cases h0 : mmcAttemptOk (e.mmc 0) <;> cases h1 : mmcAttemptOk (e.mmc 1) <;>
      cases h2 : mmcAttemptOk (e.mmc 2) <;> cases h3 : spiAttemptOk (e.spi 0) <;>
        cases h4 : spiAttemptOk (e.spi 1) <;> cases h5 : spiAttemptOk (e.spi 2) <;>
          simp [hi, initializeSDCardCore, tryLoop_three, mmcAnyOk, spiAnyOk,
            h0, h1, h2, h3, h4, h5]

/-- C7: every generated capture filename is the prefix, an underscore, a
non-empty all-digit decimal millisecond timestamp, and the `.jpg` suffix;
and when the card initializes and the file opens, `saveImageToSD` reports
success exactly when the written byte count equals the frame length (a
short write is a failure). -/
theorem generateImageFileName_saveImageToSD_spec (pre : String) (now : Nat)
    (e : SaveEnv) (st : SDState) (L : Nat)
    (hinit : (initializeSDCard e.sdEnv st).ok = true)
    (hopen : e.openOk = true) :
    (∃ ds : String, generateImageFileName pre now = pre ++ "_" ++ ds ++ ".jpg"
        ∧ ds ≠ "" ∧ ds.data.all Char.isDigit = true)
    ∧ ((saveImageToSD e st L).ok = true ↔ e.written = L) := by
  constructor
  · refine ⟨natToDecimal (now % 2 ^ 32), rfl, ?_, ?_⟩
    · intro hcon
      have h2 : (natToDecimal (now % 2 ^ 32)).data = [] := by rw [hcon]
      exact (natToDecimalAux_spec _ _ (Nat.lt_succ_self _)).1 h2
    · rw [List.all_eq_true]
      exact (natToDecimalAux_spec (now % 2 ^ 32 + 1) (now % 2 ^ 32)
        (Nat.lt_succ_self _)).2
  · unfold saveImageToSD
    simp [hinit, hopen]

/-- C8: the create-folder handler rejects an empty name or one containing
`/` or `\` before any mkdir call (under every transport environment); when
a mkdir call is reached, its argument is the base path normalized to begin
with `/`, joined to the name with exactly one separator at the junction;
and a false mkdir result yields the creation-failure response. -/
theorem handleCreateFolder_spec (hasPath hasName : Bool) (basePath name : String)
    (e : CreateEnv) (st : SDState) :
    (strContainsChar name '/' = true ∨ strContainsChar name '\\' = true ∨ name = "" →
        (handleCreateFolder true true basePath name e st).mkdirArg = none
        ∧ (handleCreateFolder true true basePath name e st).status = 400
        ∧ (handleCreateFolder true true basePath name e st).body = createInvalidBody)
    ∧ (∀ p, (handleCreateFolder hasPath hasName basePath name e st).mkdirArg = some p →
        strStartsWith (normalizeDirPath basePath) "/" = true
        ∧ (strEndsWith (normalizeDirPath basePath) "/" = false →
            p = normalizeDirPath basePath ++ "/" ++ name)
        ∧ (strEndsWith (normalizeDirPath basePath) "/" = true →
            p = normalizeDirPath basePath ++ name))
    ∧ ((handleCreateFolder hasPath hasName basePath name e st).mkdirArg ≠ none →
        e.mkdirOk = false →
        (handleCreateFolder hasPath hasName basePath name e st).status = 500
        ∧ (handleCreateFolder hasPath hasName basePath name e st).body
            = createFailBody) := by
  refine ⟨?_, ?_, ?_⟩
  · intro h
    have hcond : (strContainsChar name '/' || strContainsChar name '\\' ||
        name.length == 0) = true := by
      rcases h with h | h | h
      · simp [h]
      · simp [h]
      · subst h; simp
    unfold handleCreateFolder
    simp [hcond]
  · intro p hp
    rcases handleCreateFolder_cases hasPath hasName basePath name e st with hc | ⟨st', hc⟩
    · rw [hc] at hp
      cases hp
    · rw [hc] at hp
      obtain ⟨h1, h2⟩ := createFolderMkdir_arg _ _ _ _ _ hp
      exact ⟨normalizeDirPath_startsWith basePath, h1, h2⟩
  · intro hne hmk
    rcases handleCreateFolder_cases hasPath hasName basePath name e st with hc | ⟨st', hc⟩
    · exact absurd hc hne
    · rw [hc, hmk]
      exact createFolderMkdir_fail _ _ _

/-- C9: in every streaming-loop iteration that acquires a frame the frame
is released exactly once and the release is the last event of the
iteration's block (hence precedes the next acquisition), including
empty-frame iterations, and over any finite run the number of releases
equals the number of successful acquisitions. -/
theorem streamIter_release_spec (es : List StreamIterEnv) :
    (streamTrace es).count StreamEv.release = (streamTrace es).count StreamEv.acquire
    ∧ ∀ e ∈ es,
        (streamIter e).count StreamEv.release = (if e.fbAvail then 1 else 0)
        ∧ (e.fbAvail = true → (streamIter e).getLast? = some StreamEv.release) := by
  constructor
  · induction es with
    | nil => rfl
    | cons a t ih =>
      show (streamIter a ++ streamTrace t).count StreamEv.release
          = (streamIter a ++ streamTrace t).count StreamEv.acquire
      rw [List.count_append, List.count_append, streamIter_count_release,
        streamIter_count_acquire, ih]
  · intro f hf
    exact ⟨streamIter_count_release f, fun hA => streamIter_getLast f hA⟩

/-- C10: the delete handler passes the caller-supplied path to the
transport `remove` exactly as received, while the download and list
handlers normalize theirs (prepending `/` when absent; the list handler
additionally defaults an empty path to `/`), so for every path not
beginning with `/` the delete handler targets a different name. -/
theorem handleFileDelete_no_normalization_spec (p : String) (eDel eDown : SDEnv)
    (removeOk openOk isDir : Bool) (stDel stDown stList : SDState)
    (le : ListEnv) (entries : List DirEntry) :
    (∀ q, (handleFileDelete true p eDel removeOk stDel).removeArg = some q → q = p)
    ∧ (∀ q, (handleFileDownload true p eDown openOk isDir stDown).openArg = some q →
        q = (if strStartsWith p "/" then p else "/" ++ p))
    ∧ (∀ q, (handleFileList true p le entries stList).openArg = some q →
        q = normalizeDirPath p)
    ∧ (strStartsWith p "/" = false → ("/" ++ p) ≠ p) := by
  refine ⟨?_, ?_, ?_, ?_⟩
  · intro q hq
    unfold handleFileDelete at hq
    dsimp only at hq
    split at hq
    · cases hq
    · split at hq
      · cases hq
      · split at hq <;> (cases hq; rfl)
  · intro q hq
    unfold handleFileDownload at hq
    dsimp only at hq
    split at hq
    · cases hq
    · split at hq
      · cases hq
      · split at hq
        · cases hq; rfl
        · split at hq <;> (cases hq; rfl)
  · intro q hq
    unfold handleFileList listOpenPart at hq
    dsimp only at hq
    split at hq
    · split at hq
      · cases hq
      · split at hq
        · cases hq; rfl
        · split at hq
          · cases hq; rfl
          · cases hq; rfl
    · split at hq
      · cases hq; rfl
      · split at hq
        · cases hq; rfl
        · cases hq; rfl
  · intro hs heq
    have h2 : ('/' :: p.data) = p.data := by
      have h3 := congrArg String.data heq
      rwa [data_slash_append] at h3
    have h4 := congrArg List.length h2
    simp at h4

/-! ### Witnesses -/

/-- An environment in which only the second SPI attempt verifies. -/
def spiOnlyEnv : SDEnv :=
  ⟨7, true, fun _ => noAttempt, fun i => if i = 1 then goodAttempt else noAttempt⟩

/-- A save environment whose card is healthy and whose write reports 42
bytes. -/
def saveEnvW : SaveEnv := ⟨quietEnv, true, 42⟩

/-- A create-folder environment with a healthy card and succeeding mkdir. -/
def createEnvW : CreateEnv := ⟨quietEnv, quietEnv, quietEnv, true⟩

/-- Witness for C5 at a concrete uninitialized state. -/
theorem checkSDCardStatus_throttle_witness :
    checkSDCardStatus quietEnv ⟨false, false, 0⟩ = ⟨false, ⟨false, false, 0⟩, 0⟩ :=
  (checkSDCardStatus_throttle_spec ⟨false, false, 0⟩ quietEnv quietEnv).1 rfl

/-- Witness for C6: with every SD_MMC attempt failing and the second SPI
attempt verifying, initialization records SPI (serial) mode. -/
theorem initializeSDCard_mode_fallback_witness :
    (initializeSDCard spiOnlyEnv ⟨false, false, 0⟩).st.usingSPIMode = true :=
  (initializeSDCard_mode_fallback_spec spiOnlyEnv ⟨false, false, 0⟩ rfl).2.2.2.2.2.1
    (by decide) (by decide)

/-- Witness for C7 at a concrete prefix, timestamp and healthy save
environment. -/
theorem generateImageFileName_saveImageToSD_witness :
    (∃ ds : String,
        generateImageFileName "CAPTURE" 99 = "CAPTURE" ++ "_" ++ ds ++ ".jpg"
        ∧ ds ≠ "" ∧ ds.data.all Char.isDigit = true)
    ∧ ((saveImageToSD saveEnvW ⟨true, false, 0⟩ 42).ok = true
        ↔ saveEnvW.written = 42) :=
  generateImageFileName_saveImageToSD_spec "CAPTURE" 99 saveEnvW ⟨true, false, 0⟩ 42
    (by decide) rfl

/-- Witness for C8: the name `a/b` is rejected with no mkdir call. -/
theorem handleCreateFolder_witness :
    (handleCreateFolder true true "/photos" "a/b" createEnvW ⟨true, false, 0⟩).mkdirArg
        = none
    ∧ (handleCreateFolder true true "/photos" "a/b" createEnvW ⟨true, false, 0⟩).status
        = 400
    ∧ (handleCreateFolder true true "/photos" "a/b" createEnvW ⟨true, false, 0⟩).body
        = createInvalidBody :=
  (handleCreateFolder_spec true true "/photos" "a/b" createEnvW ⟨true, false, 0⟩).1
    (Or.inl (by decide))

/-- Witness for C9 on a concrete three-iteration run (a frame, a miss, an
empty frame). -/
theorem streamIter_release_witness :
    (streamTrace [⟨true, [1, 2, 3]⟩, ⟨false, []⟩, ⟨true, []⟩]).count StreamEv.release
      = (streamTrace [⟨true, [1, 2, 3]⟩, ⟨false, []⟩, ⟨true, []⟩]).count StreamEv.acquire
    ∧ (streamIter ⟨true, []⟩).count StreamEv.release
        = (if (StreamIterEnv.mk true []).fbAvail then 1 else 0) :=
  ⟨(streamIter_release_spec [⟨true, [1, 2, 3]⟩, ⟨false, []⟩, ⟨true, []⟩]).1,
   ((streamIter_release_spec [⟨true, []⟩]).2 ⟨true, []⟩ (by simp)).1⟩

/-- Witness for C10: the name delete targets differs from the normalized
one for a path without a leading slash. -/
theorem handleFileDelete_no_normalization_witness :
    ("/" ++ "x.jpg" : String) ≠ "x.jpg" :=
  (handleFileDelete_no_normalization_spec "x.jpg" quietEnv quietEnv true true true
      ⟨true, false, 0⟩ ⟨true, false, 0⟩ ⟨true, false, 0⟩ listEnvOk []).2.2.2
    (by decide)

end ArduinoCam
